import Mathlib

/-!
Verification of the annotation interaction controller and the time-of-day
lighting model of the 3d-model-viewer repository.

The interaction controller is embedded from `src/components/ModelViewer.tsx`
(state hooks `placing`, `draggingId`, `dragOverPoint` and the handlers
`handleSceneClick`, `handleMarkerPointerDown`, `handleMarkerPointerUp`,
`handleMarkerPointerMove`, `handleScenePointerMove`) and from `src/App.tsx`
(the central `annotations` list and the handlers `handleEditAnnotation`,
`handleDeleteAnnotation`, `isNight`).

World points are modelled as triples of rationals (the controller performs no
arithmetic on them, only stores and compares them); uuid generation is
modelled by a fresh-counter `nextId`, with freshness of generated ids proved
from the counter invariant. The lighting computation `getSunParams` is
embedded over the reals, with JavaScript `Math.sin`/`Math.cos` read as exact
real trigonometry.

Record and handler names ending in "...Annotation" in the source are
shortened to "...Annot" here; everything else keeps the name used in the source.
-/

/-- A 3D world point, as produced by the scene raycast (`e.point`). -/
abbrev Point3 : Type := ℚ × ℚ × ℚ

/-- The `Annotation` record of `App.tsx` / `ModelViewer.tsx`:
`{ id, position, title, description }`. Ids are modelled as naturals. -/
structure Annot where
  id : Nat
  position : Point3
  title : String
  description : String
deriving DecidableEq

/-- The combined session state: the central `annotations` list of `App.tsx`
plus the `placing`, `draggingId`, `dragOverPoint` hooks of `ModelViewer.tsx`,
and the fresh-id counter modelling `uuidv4()`. -/
structure ViewerState where
  annotations : List Annot
  placing : Bool
  draggingId : Option Nat
  dragOverPoint : Option Point3
  nextId : Nat
deriving DecidableEq

/-- The initial state: no annotations, nothing armed, nothing dragging. -/
def initialState : ViewerState :=
  { annotations := [], placing := false, draggingId := none,
    dragOverPoint := none, nextId := 0 }

/-- Source `startPlacing` (ModelViewer.tsx line 387): `setPlacing(true)`. -/
def startPlacing (s : ViewerState) : ViewerState :=
  { s with placing := true }

/-- Source `handleSceneClick` (ModelViewer.tsx lines 369-384): if not placing,
return early; otherwise append a new record with a fresh id, position the
clicked point, title "New Annotation", empty description, and disarm. -/
def handleSceneClick (s : ViewerState) (point : Point3) : ViewerState :=
  if s.placing then
    { s with
      annotations := s.annotations ++
        [{ id := s.nextId, position := point,
           title := "New Annotation", description := "" }],
      placing := false,
      nextId := s.nextId + 1 }
  else s

/-- Source `handleEditAnnotation` (App.tsx lines 23-25):
`a.map(ann => ann.id === id ? { ...ann, title, description } : ann)`. -/
def handleEditAnnot (s : ViewerState) (id : Nat)
    (title description : String) : ViewerState :=
  { s with
    annotations := s.annotations.map fun ann =>
      if ann.id = id then { ann with title := title, description := description }
      else ann }

/-- Source `handleDeleteAnnotation` (App.tsx lines 27-29):
`a.filter(ann => ann.id !== id)`. Note: it touches only the list; the drag
state living in `ModelViewer.tsx` is not consulted or cleared. -/
def handleDeleteAnnot (s : ViewerState) (id : Nat) : ViewerState :=
  { s with annotations := s.annotations.filter fun ann => ann.id != id }

/-- Source `handleMarkerPointerDown` (ModelViewer.tsx lines 411-415):
`setDraggingId(id); setDragOverPoint(null)` — unconditionally, with no check
of a drag already in progress. -/
def handleMarkerPointerDown (s : ViewerState) (id : Nat) : ViewerState :=
  { s with draggingId := some id, dragOverPoint := none }

/-- Source `handleMarkerPointerUp` (ModelViewer.tsx lines 417-424): if
`draggingId === id && dragOverPoint`, commit `dragOverPoint` as the
position of the annotation; in all cases clear `draggingId` and `dragOverPoint`. -/
def handleMarkerPointerUp (s : ViewerState) (id : Nat) : ViewerState :=
  { s with
    annotations :=
      match s.dragOverPoint with
      | some p =>
          if s.draggingId = some id then
            s.annotations.map fun ann =>
              if ann.id = id then { ann with position := p } else ann
          else s.annotations
      | none => s.annotations,
    draggingId := none,
    dragOverPoint := none }

/-- Source `handleMarkerPointerMove` (ModelViewer.tsx lines 426-430): while this
marker is the one dragging, record the hover point as the drag preview. -/
def handleMarkerPointerMove (s : ViewerState) (id : Nat)
    (point : Point3) : ViewerState :=
  if s.draggingId = some id then { s with dragOverPoint := some point } else s

/-- Source `handleScenePointerMove` (ModelViewer.tsx lines 433-437): while any drag
is active, record the hover point as the drag preview. -/
def handleScenePointerMove (s : ViewerState) (point : Point3) : ViewerState :=
  if s.draggingId.isSome then { s with dragOverPoint := some point } else s

/-- The operations of the interaction controller, for reachability.
`armPlacement`/`consumePlacementAt` are `startPlacing`/`handleSceneClick`;
`beginDrag` is `handleMarkerPointerDown`; `updateDragMarker`/`updateDrag`
are the two pointer-move handlers; `commitDrag` is `handleMarkerPointerUp`
(which also acts as cancel when the preview is unset or the id differs). -/
inductive UiAction where
  | armPlacement : UiAction
  | consumePlacementAt : Point3 → UiAction
  | edit : Nat → String → String → UiAction
  | delete : Nat → UiAction
  | beginDrag : Nat → UiAction
  | updateDragMarker : Nat → Point3 → UiAction
  | updateDrag : Point3 → UiAction
  | commitDrag : Nat → UiAction

/-- Interpret one action by the corresponding source handler. -/
def applyAction (s : ViewerState) : UiAction → ViewerState
  | .armPlacement => startPlacing s
  | .consumePlacementAt p => handleSceneClick s p
  | .edit id t d => handleEditAnnot s id t d
  | .delete id => handleDeleteAnnot s id
  | .beginDrag id => handleMarkerPointerDown s id
  | .updateDragMarker id p => handleMarkerPointerMove s id p
  | .updateDrag p => handleScenePointerMove s p
  | .commitDrag id => handleMarkerPointerUp s id

/-- Run a sequence of actions from a state (events in arrival order). -/
def runActions (s : ViewerState) (acts : List UiAction) : ViewerState :=
  acts.foldl applyAction s

/-- A drag preview is only ever set while a drag is active. -/
def dragConsistent (s : ViewerState) : Prop :=
  s.dragOverPoint ≠ none → s.draggingId ≠ none

/-- All annotation ids are below the fresh-id counter (uuid freshness). -/
def idsFresh (s : ViewerState) : Prop :=
  ∀ a ∈ s.annotations, a.id < s.nextId

/-! ### Lighting model -/

/-- Source `isNight` (App.tsx line 32): `timeOfDay >= 20 || timeOfDay < 6`. -/
def isNight (timeOfDay : ℝ) : Prop :=
  20 ≤ timeOfDay ∨ timeOfDay < 6

noncomputable instance (timeOfDay : ℝ) : Decidable (isNight timeOfDay) := by
  unfold isNight; infer_instance

/-- App.tsx passes `isNight` down to `ModelViewer` as a boolean prop;
this is that boolean. -/
noncomputable def appIsNight (timeOfDay : ℝ) : Bool :=
  decide (isNight timeOfDay)

/-- The result record of `getSunParams` (ModelViewer.tsx lines 321-325). -/
structure SunParams where
  position : ℝ × ℝ × ℝ
  color : String
  intensity : ℝ

/-- Source `getSunParams` (ModelViewer.tsx lines 310-326), with
`t = (timeOfDay - 6) / 12` and `angle = π·t` inlined:
`sunY = max(sin(angle), 0.05) * 10`, `sunX = cos(angle) * 10`, depth `7.5`;
color is amber for `t < 0.2 || t > 0.8`, else near-white;
intensity is `0` for `t < 0 || t > 1`, else `max(sin(angle), 0)`. -/
noncomputable def getSunParams (timeOfDay : ℝ) : SunParams where
  position :=
    (Real.cos (Real.pi * ((timeOfDay - 6) / 12)) * 10,
     max (Real.sin (Real.pi * ((timeOfDay - 6) / 12))) 0.05 * 10,
     7.5)
  color :=
    if (timeOfDay - 6) / 12 < 0.2 ∨ (timeOfDay - 6) / 12 > 0.8
    then "#ffb347" else "#fffbe6"
  intensity :=
    if (timeOfDay - 6) / 12 < 0 ∨ (timeOfDay - 6) / 12 > 1
    then 0 else max (Real.sin (Real.pi * ((timeOfDay - 6) / 12))) 0

/-- A point-light descriptor, matching the `<pointLight .../>` props
(position, intensity, color, falloff distance). -/
structure PointLight where
  position : ℚ × ℚ × ℚ
  intensity : ℚ
  color : String
  distance : ℚ
deriving DecidableEq

/-- The fixed night constellation (ModelViewer.tsx lines 587-589): one
overhead cool-blue light and two flanking white accents. -/
def nightPointLights : List PointLight :=
  [ { position := (0, 2, 0), intensity := 0.7, color := "#aaf", distance := 8 },
    { position := (2, 2, 2), intensity := 0.5, color := "#fff", distance := 6 },
    { position := (-2, 2, -2), intensity := 0.5, color := "#fff", distance := 6 } ]

/-- The per-frame lighting configuration `ModelViewer` derives from its
props (sun, ambient, artificial lights). -/
structure FrameLighting where
  sun : SunParams
  ambientIntensity : ℝ
  ambientColor : String
  artificialLights : List PointLight

/-- The lighting `ModelViewer` derives each render from the props
`timeOfDay`, `isNight`, `nightLightsEnabled` (ModelViewer.tsx lines 439-442
and 585-591): sun from `getSunParams`; ambient `0.15`/`#222233` at night,
else `0.4`/`#ffffff`; the point-light constellation exactly when
`isNight && nightLightsEnabled`. -/
noncomputable def viewerFrame (timeOfDay : ℝ) (night : Bool)
    (nightLightsEnabled : Bool) : FrameLighting where
  sun := getSunParams timeOfDay
  ambientIntensity := if night then 0.15 else 0.4
  ambientColor := if night then "#222233" else "#ffffff"
  artificialLights := if night && nightLightsEnabled then nightPointLights else []

/-- Two committed annotations at ids 0 and 1 with annotation 0 mid-drag:
the state reached by placing twice and then pressing marker 0. -/
def twoAnnotDragState : ViewerState :=
  { annotations :=
      [ { id := 0, position := (0, 0, 0), title := "New Annotation",
          description := "" },
        { id := 1, position := (1, 1, 1), title := "New Annotation",
          description := "" } ],
    placing := false, draggingId := some 0, dragOverPoint := none,
    nextId := 2 }

/-! ### Preservation lemmas -/

theorem handleSceneClick_dragConsistent (s : ViewerState) (p : Point3)
    (h : dragConsistent s) : dragConsistent (handleSceneClick s p) := by
  unfold dragConsistent at h ⊢
  unfold handleSceneClick
  split
  · simpa using h
  · exact h

theorem handleEditAnnot_dragConsistent (s : ViewerState) (id : Nat)
    (t d : String) (h : dragConsistent s) :
    dragConsistent (handleEditAnnot s id t d) := h

theorem handleDeleteAnnot_dragConsistent (s : ViewerState) (id : Nat)
    (h : dragConsistent s) : dragConsistent (handleDeleteAnnot s id) := h

theorem handleMarkerPointerDown_dragConsistent (s : ViewerState) (id : Nat) :
    dragConsistent (handleMarkerPointerDown s id) := by
  unfold dragConsistent handleMarkerPointerDown
  simp

theorem handleMarkerPointerMove_dragConsistent (s : ViewerState) (id : Nat)
    (p : Point3) (h : dragConsistent s) :
    dragConsistent (handleMarkerPointerMove s id p) := by
  unfold dragConsistent at h ⊢
  unfold handleMarkerPointerMove
  split
  · next hd => simp [hd]
  · exact h

theorem handleScenePointerMove_dragConsistent (s : ViewerState) (p : Point3)
    (h : dragConsistent s) : dragConsistent (handleScenePointerMove s p) := by
  unfold dragConsistent at h ⊢
  unfold handleScenePointerMove
  split
  · next hd =>
      rw [Option.isSome_iff_exists] at hd
      obtain ⟨i, hi⟩ := hd
      simp [hi]
  · exact h

theorem handleMarkerPointerUp_dragConsistent (s : ViewerState) (id : Nat) :
    dragConsistent (handleMarkerPointerUp s id) := by
  unfold dragConsistent handleMarkerPointerUp
  simp

/-- Every single interaction step preserves the one-direction drag
invariant: a set preview implies an active drag. -/
theorem applyAction_dragConsistent (s : ViewerState) (a : UiAction)
    (h : dragConsistent s) : dragConsistent (applyAction s a) := by
  cases a with
  | armPlacement => exact h
  | consumePlacementAt p => exact handleSceneClick_dragConsistent s p h
  | edit id t d => exact handleEditAnnot_dragConsistent s id t d h
  | delete id => exact handleDeleteAnnot_dragConsistent s id h
  | beginDrag id => exact handleMarkerPointerDown_dragConsistent s id
  | updateDragMarker id p => exact handleMarkerPointerMove_dragConsistent s id p h
  | updateDrag p => exact handleScenePointerMove_dragConsistent s p h
  | commitDrag id => exact handleMarkerPointerUp_dragConsistent s id

theorem runActions_dragConsistent (acts : List UiAction) :
    ∀ s : ViewerState, dragConsistent s → dragConsistent (runActions s acts) := by
  induction acts with
  | nil => intro s h; exact h
  | cons a rest ih =>
      intro s h
      exact ih (applyAction s a) (applyAction_dragConsistent s a h)

/-! ### Claims -/

/-- C1 (counterexample): the claim "`beginDrag(B)` while annotation A is
mid-drag is a no-op, `draggingId` remains A" is false on the code. In the
reachable state with annotations 0 and 1 where 0 is mid-drag, pressing
marker 1 switches `draggingId` to 1 instead of leaving it at 0:
`handleMarkerPointerDown` has no active-drag guard. -/
theorem beginDrag_second_call_cex :
    (runActions initialState
      [.armPlacement, .consumePlacementAt (0, 0, 0),
       .armPlacement, .consumePlacementAt (1, 1, 1),
       .beginDrag 0, .beginDrag 1]).draggingId ≠ some 0 ∧
    (runActions initialState
      [.armPlacement, .consumePlacementAt (0, 0, 0),
       .armPlacement, .consumePlacementAt (1, 1, 1),
       .beginDrag 0, .beginDrag 1]).draggingId = some 1 := by
  decide

/-- C1 (amended): `beginDrag(B)` (pointer-down on marker B) is never a
no-op while another drag is active — it unconditionally switches
`draggingId` to B and resets the drag preview to null, in every state;
the annotation list and placement flag are untouched. -/
theorem beginDrag_unconditional (s : ViewerState) (id : Nat) :
    (handleMarkerPointerDown s id).draggingId = some id ∧
    (handleMarkerPointerDown s id).dragOverPoint = none ∧
    (handleMarkerPointerDown s id).annotations = s.annotations ∧
    (handleMarkerPointerDown s id).placing = s.placing ∧
    (handleMarkerPointerDown s id).nextId = s.nextId :=
  ⟨rfl, rfl, rfl, rfl, rfl⟩

/-- Witness for C1 (amended) at the concrete two-annotation drag state:
pressing marker 1 while 0 is mid-drag yields `draggingId = some 1` with a
cleared preview. -/
theorem beginDrag_unconditional_witness :
    (handleMarkerPointerDown twoAnnotDragState 1).draggingId = some 1 ∧
    (handleMarkerPointerDown twoAnnotDragState 1).dragOverPoint = none :=
  ⟨(beginDrag_unconditional twoAnnotDragState 1).1,
   (beginDrag_unconditional twoAnnotDragState 1).2.1⟩

/-- C2 (counterexample): the claim "if `draggingId` equals the deleted id,
the drag state is also cleared, so `draggingId` never refers to an
annotation no longer in the list" is false on the code. Deleting
annotation 0 while it is mid-drag leaves `draggingId = some 0` dangling
over an empty list: `handleDeleteAnnotation` only filters the list. -/
theorem deleteAnnot_dangling_cex :
    (runActions initialState
      [.armPlacement, .consumePlacementAt (0, 0, 0), .beginDrag 0,
       .delete 0]).annotations = [] ∧
    (runActions initialState
      [.armPlacement, .consumePlacementAt (0, 0, 0), .beginDrag 0,
       .delete 0]).draggingId = some 0 := by
  decide

/-- C2 (amended): `deleteAnnotation(id)` removes every annotation with the
given id from the list and keeps all others, but it does NOT touch the drag
state: `draggingId` and `dragPreviewPosition` are preserved verbatim, even
when `draggingId = id` — so a dangling `draggingId` is possible. -/
theorem deleteAnnot_removes_keeps_drag (s : ViewerState) (id : Nat) :
    (handleDeleteAnnot s id).draggingId = s.draggingId ∧
    (handleDeleteAnnot s id).dragOverPoint = s.dragOverPoint ∧
    (handleDeleteAnnot s id).placing = s.placing ∧
    (∀ a ∈ (handleDeleteAnnot s id).annotations, a.id ≠ id) ∧
    (∀ a ∈ s.annotations, a.id ≠ id →
      a ∈ (handleDeleteAnnot s id).annotations) := by
  refine ⟨rfl, rfl, rfl, ?_, ?_⟩
  · intro a ha
    unfold handleDeleteAnnot at ha
    simp only [List.mem_filter, bne_iff_ne, ne_eq] at ha
    exact ha.2
  · intro a ha hne
    unfold handleDeleteAnnot
    simp only [List.mem_filter, bne_iff_ne, ne_eq]
    exact ⟨ha, hne⟩

/-- Witness for C2 (amended) at the concrete two-annotation drag state:
deleting the dragged annotation 0 keeps `draggingId = some 0` and keeps
annotation 1 in the list. -/
theorem deleteAnnot_removes_keeps_drag_witness :
    (handleDeleteAnnot twoAnnotDragState 0).draggingId = some 0 ∧
    ({ id := 1, position := (1, 1, 1), title := "New Annotation",
       description := "" } : Annot) ∈
      (handleDeleteAnnot twoAnnotDragState 0).annotations := by
  constructor
  · exact (deleteAnnot_removes_keeps_drag twoAnnotDragState 0).1
  · exact (deleteAnnot_removes_keeps_drag twoAnnotDragState 0).2.2.2.2
      { id := 1, position := (1, 1, 1), title := "New Annotation",
        description := "" } (by decide) (by decide)

/-- C3 (counterexample): the claimed invariant "`dragPreviewPosition` is
non-null iff `draggingId` is non-null" fails in a reachable state: right
after placing an annotation and pressing its marker, `draggingId` is set
while the preview is still null (`beginDrag` resets it to null). -/
theorem dragPreview_iff_dragging_cex :
    ¬(((runActions initialState
          [.armPlacement, .consumePlacementAt (0, 0, 0),
           .beginDrag 0]).dragOverPoint ≠ none) ↔
      ((runActions initialState
          [.armPlacement, .consumePlacementAt (0, 0, 0),
           .beginDrag 0]).draggingId ≠ none)) := by
  decide

/-- C3 (amended): in every state reachable from the initial empty state by
the operations of the controller, only one direction of the claimed invariant
holds: if `dragPreviewPosition` is non-null then `draggingId` is non-null
(the converse fails right after `beginDrag`). -/
theorem dragPreview_implies_dragging (acts : List UiAction)
    (h : (runActions initialState acts).dragOverPoint ≠ none) :
    (runActions initialState acts).draggingId ≠ none :=
  runActions_dragConsistent acts initialState (fun hc => absurd rfl hc) h

/-- Witness for C3 (amended): after arming, placing, beginning a drag and
one drag update, the preview is set and the theorem yields an active drag. -/
theorem dragPreview_implies_dragging_witness :
    (runActions initialState
      [.armPlacement, .consumePlacementAt (0, 0, 0), .beginDrag 0,
       .updateDrag (1, 1, 1)]).draggingId ≠ none :=
  dragPreview_implies_dragging
    [.armPlacement, .consumePlacementAt (0, 0, 0), .beginDrag 0,
     .updateDrag (1, 1, 1)] (by decide)

theorem handleSceneClick_idsFresh (s : ViewerState) (p : Point3)
    (h : idsFresh s) : idsFresh (handleSceneClick s p) := by
  unfold idsFresh at h ⊢
  unfold handleSceneClick
  split
  · intro a ha
    dsimp only at ha ⊢
    rw [List.mem_append] at ha
    rcases ha with ha | ha
    · exact Nat.lt_succ_of_lt (h a ha)
    · rw [List.mem_singleton] at ha
      rw [ha]
      exact Nat.lt_succ_self _
  · exact h

theorem handleEditAnnot_idsFresh (s : ViewerState) (id : Nat) (t d : String)
    (h : idsFresh s) : idsFresh (handleEditAnnot s id t d) := by
  unfold idsFresh at h ⊢
  unfold handleEditAnnot
  intro a ha
  dsimp only at ha ⊢
  rw [List.mem_map] at ha
  obtain ⟨b, hb, rfl⟩ := ha
  split <;> exact h b hb

theorem handleDeleteAnnot_idsFresh (s : ViewerState) (id : Nat)
    (h : idsFresh s) : idsFresh (handleDeleteAnnot s id) := by
  unfold idsFresh at h ⊢
  unfold handleDeleteAnnot
  intro a ha
  dsimp only at ha ⊢
  rw [List.mem_filter] at ha
  exact h a ha.1

theorem handleMarkerPointerUp_idsFresh (s : ViewerState) (id : Nat)
    (h : idsFresh s) : idsFresh (handleMarkerPointerUp s id) := by
  unfold idsFresh at h ⊢
  unfold handleMarkerPointerUp
  intro a ha
  dsimp only at ha ⊢
  rcases hdp : s.dragOverPoint with _ | q
  · rw [hdp] at ha
    exact h a ha
  · rw [hdp] at ha
    dsimp only at ha
    by_cases hdr : s.draggingId = some id
    · rw [if_pos hdr] at ha
      rw [List.mem_map] at ha
      obtain ⟨b, hb, rfl⟩ := ha
      split <;> exact h b hb
    · rw [if_neg hdr] at ha
      exact h a ha

/-- Every interaction step preserves the fresh-id counter invariant. -/
theorem applyAction_idsFresh (s : ViewerState) (a : UiAction)
    (h : idsFresh s) : idsFresh (applyAction s a) := by
  cases a with
  | armPlacement => exact h
  | consumePlacementAt p => exact handleSceneClick_idsFresh s p h
  | edit id t d => exact handleEditAnnot_idsFresh s id t d h
  | delete id => exact handleDeleteAnnot_idsFresh s id h
  | beginDrag id => exact h
  | updateDragMarker id p =>
      show idsFresh (handleMarkerPointerMove s id p)
      unfold idsFresh at h ⊢
      unfold handleMarkerPointerMove
      split
      · exact h
      · exact h
  | updateDrag p =>
      show idsFresh (handleScenePointerMove s p)
      unfold idsFresh at h ⊢
      unfold handleScenePointerMove
      split
      · exact h
      · exact h
  | commitDrag id => exact handleMarkerPointerUp_idsFresh s id h

theorem runActions_idsFresh (acts : List UiAction) :
    ∀ s : ViewerState, idsFresh s → idsFresh (runActions s acts) := by
  induction acts with
  | nil => intro s h; exact h
  | cons a rest ih =>
      intro s h
      exact ih (applyAction s a) (applyAction_idsFresh s a h)

/-- C4: world clicks with placement unarmed leave the state unchanged;
with placement armed, exactly one annotation is appended at the end with
the clicked position, a fresh id, title "New Annotation" and empty
description, and placement disarms. Freshness of the generated id follows
from the fresh-counter invariant. -/
theorem consumePlacement_spec (s : ViewerState) (p : Point3) :
    (s.placing = false → handleSceneClick s p = s) ∧
    (s.placing = true →
      (handleSceneClick s p).annotations =
        s.annotations ++
          [{ id := s.nextId, position := p, title := "New Annotation",
             description := "" }] ∧
      (handleSceneClick s p).annotations.length = s.annotations.length + 1 ∧
      (handleSceneClick s p).placing = false ∧
      (handleSceneClick s p).draggingId = s.draggingId ∧
      (handleSceneClick s p).dragOverPoint = s.dragOverPoint ∧
      (idsFresh s → s.nextId ∉ s.annotations.map (fun a => a.id))) := by
  constructor
  · intro hp
    unfold handleSceneClick
    rw [hp]
    rfl
  · intro hp
    unfold handleSceneClick
    rw [hp]
    refine ⟨rfl, by simp, rfl, rfl, rfl, ?_⟩
    intro hf hmem
    rw [List.mem_map] at hmem
    obtain ⟨a, ha, hid⟩ := hmem
    exact absurd hid (Nat.ne_of_lt (hf a ha))

/-- Witness for C4: from the empty initial state, an unarmed click is the
identity; after arming, a click at (1,2,3) yields exactly the one expected
annotation with id 0, disarms placement, and id 0 was fresh. -/
theorem consumePlacement_spec_witness :
    handleSceneClick initialState (5, 5, 5) = initialState ∧
    (handleSceneClick (startPlacing initialState) (1, 2, 3)).annotations =
      [{ id := 0, position := (1, 2, 3), title := "New Annotation",
         description := "" }] ∧
    (handleSceneClick (startPlacing initialState) (1, 2, 3)).placing = false ∧
    (0 : Nat) ∉ (startPlacing initialState).annotations.map (fun a => a.id) := by
  refine ⟨?_, ?_, ?_, ?_⟩
  · exact (consumePlacement_spec initialState (5, 5, 5)).1 rfl
  · exact ((consumePlacement_spec (startPlacing initialState) (1, 2, 3)).2 rfl).1
  · exact ((consumePlacement_spec (startPlacing initialState) (1, 2, 3)).2 rfl).2.2.1
  · exact ((consumePlacement_spec (startPlacing initialState) (1, 2, 3)).2 rfl).2.2.2.2.2
      (fun a ha => absurd ha (List.not_mem_nil a))

/-- C9: pointer-up on the dragged marker with no preview recorded
(`dragPreviewPosition` null) commits nothing — the position of every annotation
(indeed the whole list) is unchanged — and clears both drag fields. -/
theorem commitDrag_no_preview (s : ViewerState) (id : Nat)
    (_hdrag : s.draggingId = some id) (hprev : s.dragOverPoint = none) :
    (handleMarkerPointerUp s id).annotations = s.annotations ∧
    (handleMarkerPointerUp s id).draggingId = none ∧
    (handleMarkerPointerUp s id).dragOverPoint = none := by
  unfold handleMarkerPointerUp
  rw [hprev]
  exact ⟨rfl, rfl, rfl⟩

/-- Witness for C9 at the concrete two-annotation state where annotation 0
is mid-drag with no preview set. -/
theorem commitDrag_no_preview_witness :
    (handleMarkerPointerUp twoAnnotDragState 0).annotations =
      twoAnnotDragState.annotations ∧
    (handleMarkerPointerUp twoAnnotDragState 0).draggingId = none ∧
    (handleMarkerPointerUp twoAnnotDragState 0).dragOverPoint = none :=
  commitDrag_no_preview twoAnnotDragState 0 rfl rfl

/-- C10: `editAnnotation(id, title, description)` preserves list length and
order and every non-drag field of the session; at every index the id and
position are unchanged; annotations whose id differs from the target are
wholly unchanged; the matching annotation gets exactly the new title and
description; and if no annotation carries the id, the state is unchanged. -/
theorem editAnnot_frame (s : ViewerState) (id : Nat)
    (title description : String) :
    (handleEditAnnot s id title description).annotations.length =
      s.annotations.length ∧
    (handleEditAnnot s id title description).placing = s.placing ∧
    (handleEditAnnot s id title description).draggingId = s.draggingId ∧
    (handleEditAnnot s id title description).dragOverPoint = s.dragOverPoint ∧
    (handleEditAnnot s id title description).nextId = s.nextId ∧
    (∀ i (hi : i < s.annotations.length)
        (hi2 : i < (handleEditAnnot s id title description).annotations.length),
      ((handleEditAnnot s id title description).annotations.get ⟨i, hi2⟩).id =
          (s.annotations.get ⟨i, hi⟩).id ∧
      ((handleEditAnnot s id title description).annotations.get ⟨i, hi2⟩).position =
          (s.annotations.get ⟨i, hi⟩).position ∧
      ((s.annotations.get ⟨i, hi⟩).id ≠ id →
        (handleEditAnnot s id title description).annotations.get ⟨i, hi2⟩ =
          s.annotations.get ⟨i, hi⟩) ∧
      ((s.annotations.get ⟨i, hi⟩).id = id →
        ((handleEditAnnot s id title description).annotations.get ⟨i, hi2⟩).title =
            title ∧
        ((handleEditAnnot s id title description).annotations.get
            ⟨i, hi2⟩).description = description)) ∧
    ((∀ a ∈ s.annotations, a.id ≠ id) →
      handleEditAnnot s id title description = s) := by
  refine ⟨by simp [handleEditAnnot], rfl, rfl, rfl, rfl, ?_, ?_⟩
  · intro i hi hi2
    have hm : (handleEditAnnot s id title description).annotations.get ⟨i, hi2⟩ =
        (if (s.annotations.get ⟨i, hi⟩).id = id then
          { s.annotations.get ⟨i, hi⟩ with
            title := title, description := description }
        else s.annotations.get ⟨i, hi⟩) := by
      simp [handleEditAnnot, List.getElem_map]
    by_cases hcase : (s.annotations.get ⟨i, hi⟩).id = id
    · rw [hm, if_pos hcase]
      exact ⟨rfl, rfl, fun hne => absurd hcase hne, fun _ => ⟨rfl, rfl⟩⟩
    · rw [hm, if_neg hcase]
      exact ⟨rfl, rfl, fun _ => rfl, fun heq => absurd heq hcase⟩
  · intro hall
    unfold handleEditAnnot
    have hmap : s.annotations.map (fun ann =>
        if ann.id = id then
          { ann with title := title, description := description }
        else ann) = s.annotations := by
      have h2 : s.annotations.map (fun ann =>
          if ann.id = id then
            { ann with title := title, description := description }
          else ann) = s.annotations.map (fun ann => ann) :=
        List.map_congr_left (fun a ha => by rw [if_neg (hall a ha)])
      rw [h2]
      simp
    rw [hmap]

/-- Witness for C10 at the concrete two-annotation state: editing id 0
keeps the length, sets the new title at index 0, and editing an absent id 5
is the identity. -/
theorem editAnnot_frame_witness :
    (handleEditAnnot twoAnnotDragState 0 "Door" "d").annotations.length =
      twoAnnotDragState.annotations.length ∧
    ((handleEditAnnot twoAnnotDragState 0 "Door" "d").annotations.get
        ⟨0, by decide⟩).title = "Door" ∧
    handleEditAnnot twoAnnotDragState 5 "x" "y" = twoAnnotDragState := by
  refine ⟨?_, ?_, ?_⟩
  · exact (editAnnot_frame twoAnnotDragState 0 "Door" "d").1
  · exact (((editAnnot_frame twoAnnotDragState 0 "Door" "d").2.2.2.2.2.1 0
      (by decide) (by decide)).2.2.2 (by decide)).1
  · exact (editAnnot_frame twoAnnotDragState 5 "x" "y").2.2.2.2.2.2 (by decide)

/-- C5: the sun intensity computed by `getSunParams` is exactly 0 on the
whole band `[18, 20)` (where `isNight` is still false) and on `[0, 6)`;
in particular intensity at 19:00 is 0 while `isNight 19` is false — the
intensity window (6-18) and the night-mode window (20-6) are independent. -/
theorem sunIntensity_zero_bands :
    (∀ t : ℝ, 18 ≤ t → t < 20 →
      (getSunParams t).intensity = 0 ∧ ¬ isNight t) ∧
    (∀ t : ℝ, 0 ≤ t → t < 6 → (getSunParams t).intensity = 0) := by
  constructor
  · intro t h18 h20
    constructor
    · show (if (t - 6) / 12 < 0 ∨ (t - 6) / 12 > 1 then (0:ℝ)
        else max (Real.sin (Real.pi * ((t - 6) / 12))) 0) = 0
      rcases eq_or_lt_of_le h18 with heq | hgt
      · rw [if_neg]
        · have h1 : (t - 6) / 12 = 1 := by rw [← heq]; norm_num
          rw [h1, mul_one, Real.sin_pi, max_self]
        · rw [← heq]; norm_num
      · rw [if_pos]
        right
        rw [gt_iff_lt, lt_div_iff₀ (by norm_num : (0:ℝ) < 12)]
        linarith
    · intro hn
      rcases hn with hn | hn <;> linarith
  · intro t h0 h6
    show (if (t - 6) / 12 < 0 ∨ (t - 6) / 12 > 1 then (0:ℝ)
      else max (Real.sin (Real.pi * ((t - 6) / 12))) 0) = 0
    rw [if_pos]
    left
    rw [div_lt_iff₀ (by norm_num : (0:ℝ) < 12)]
    linarith

/-- Witness for C5: intensity is 0 at 19:00 while `isNight 19` is false,
and intensity is 0 at 3:00. -/
theorem sunIntensity_zero_bands_witness :
    (getSunParams 19).intensity = 0 ∧ ¬ isNight 19 ∧
    (getSunParams 3).intensity = 0 :=
  ⟨(sunIntensity_zero_bands.1 19 (by norm_num) (by norm_num)).1,
   (sunIntensity_zero_bands.1 19 (by norm_num) (by norm_num)).2,
   sunIntensity_zero_bands.2 3 (by norm_num) (by norm_num)⟩

/-- C6: `isNight` is true exactly for `timeOfDay >= 20 || timeOfDay < 6`,
with the boundary values `isNight 20` true, `isNight 19.999` false,
`isNight 6` false and `isNight 5.999` true. -/
theorem isNight_characterization :
    (∀ t : ℝ, isNight t ↔ (20 ≤ t ∨ t < 6)) ∧
    isNight 20 ∧ ¬ isNight 19.999 ∧ ¬ isNight 6 ∧ isNight 5.999 := by
  refine ⟨fun t => Iff.rfl, Or.inl (le_refl _), ?_, ?_, Or.inr (by norm_num)⟩
  · intro h
    rcases h with h | h <;> norm_num at h
  · intro h
    rcases h with h | h <;> norm_num at h

/-- Witness for C6 at the boundary instants 20:00 and 5.999. -/
theorem isNight_characterization_witness :
    isNight 20 ∧ isNight 5.999 :=
  ⟨isNight_characterization.2.1, isNight_characterization.2.2.2.2⟩

/-- C7: the sun color is the warm tone `#ffb347` exactly when
`t < 0.2 ∨ t > 0.8` for `t = (timeOfDay-6)/12`, i.e. exactly when
`timeOfDay < 8.4` or `timeOfDay > 15.6`, and the neutral `#fffbe6`
otherwise; warm at 6:00 and 18:00, neutral at noon. -/
theorem sunColor_buckets :
    (∀ t : ℝ, ((getSunParams t).color = "#ffb347" ↔ (t < 8.4 ∨ t > 15.6))) ∧
    (∀ t : ℝ, ¬(t < 8.4 ∨ t > 15.6) → (getSunParams t).color = "#fffbe6") ∧
    (getSunParams 6).color = "#ffb347" ∧
    (getSunParams 12).color = "#fffbe6" ∧
    (getSunParams 18).color = "#ffb347" := by
  have hiff : ∀ t : ℝ,
      ((t - 6) / 12 < 0.2 ∨ (t - 6) / 12 > 0.8) ↔ (t < 8.4 ∨ t > 15.6) := by
    intro t
    constructor
    · rintro (h | h)
      · left
        rw [div_lt_iff₀ (by norm_num : (0:ℝ) < 12)] at h
        linarith
      · right
        rw [gt_iff_lt, lt_div_iff₀ (by norm_num : (0:ℝ) < 12)] at h
        linarith
    · rintro (h | h)
      · left
        rw [div_lt_iff₀ (by norm_num : (0:ℝ) < 12)]
        linarith
      · right
        rw [gt_iff_lt, lt_div_iff₀ (by norm_num : (0:ℝ) < 12)]
        linarith
  have hcol : ∀ t : ℝ, (getSunParams t).color =
      (if (t - 6) / 12 < 0.2 ∨ (t - 6) / 12 > 0.8
       then "#ffb347" else "#fffbe6") := fun _ => rfl
  refine ⟨?_, ?_, ?_, ?_, ?_⟩
  · intro t
    rw [hcol t]
    by_cases h : (t - 6) / 12 < 0.2 ∨ (t - 6) / 12 > 0.8
    · rw [if_pos h]
      exact ⟨fun _ => (hiff t).mp h, fun _ => rfl⟩
    · rw [if_neg h]
      exact ⟨fun habs => absurd habs (by decide),
             fun hr => absurd ((hiff t).mpr hr) h⟩
  · intro t ht
    rw [hcol t, if_neg (fun hc => ht ((hiff t).mp hc))]
  · rw [hcol 6, if_pos (Or.inl (by norm_num))]
  · rw [hcol 12, if_neg (by push_neg; constructor <;> norm_num)]
  · rw [hcol 18, if_pos (Or.inr (by norm_num))]

/-- Witness for C7: neutral at noon, warm at 7:00. -/
theorem sunColor_buckets_witness :
    (getSunParams 12).color = "#fffbe6" ∧ (getSunParams 7).color = "#ffb347" :=
  ⟨sunColor_buckets.2.1 12 (by push_neg; constructor <;> norm_num),
   (sunColor_buckets.1 7).mpr (Or.inl (by norm_num))⟩

/-- C8: the artificial point lights are on exactly when
`isNight && nightLightsEnabled`, and then they are exactly the fixed
three-light constellation (overhead cool-blue plus two flanking accents);
turning `nightLightsEnabled` off at night empties them while the sun and
ambient parameters are untouched. -/
theorem artificialLights_spec (t : ℝ) (en : Bool) :
    ((viewerFrame t (appIsNight t) en).artificialLights ≠ [] ↔
      (isNight t ∧ en = true)) ∧
    (isNight t → en = true →
      (viewerFrame t (appIsNight t) en).artificialLights = nightPointLights ∧
      (viewerFrame t (appIsNight t) en).artificialLights.length = 3) ∧
    ((viewerFrame t (appIsNight t) false).artificialLights = []) ∧
    ((viewerFrame t (appIsNight t) false).sun =
      (viewerFrame t (appIsNight t) true).sun) ∧
    ((viewerFrame t (appIsNight t) false).ambientIntensity =
      (viewerFrame t (appIsNight t) true).ambientIntensity) ∧
    ((viewerFrame t (appIsNight t) false).ambientColor =
      (viewerFrame t (appIsNight t) true).ambientColor) := by
  have hdec : appIsNight t = true ↔ isNight t := by
    unfold appIsNight
    exact decide_eq_true_iff
  cases hb : appIsNight t with
  | false =>
      have hn : ¬ isNight t := fun h =>
        absurd (hb ▸ hdec.mpr h) Bool.false_ne_true
      refine ⟨⟨fun habs => absurd rfl habs, fun hx => absurd hx.1 hn⟩,
              fun h => absurd h hn, rfl, rfl, rfl, rfl⟩
  | true =>
      have hn : isNight t := hdec.mp hb
      cases en with
      | false =>
          refine ⟨⟨fun habs => absurd rfl habs, fun hx => by simp at hx⟩,
                  fun _ hx => by simp at hx, rfl, rfl, rfl, rfl⟩
      | true =>
          refine ⟨⟨fun _ => ⟨hn, rfl⟩, fun _ => by simp [viewerFrame, nightPointLights]⟩,
                  fun _ _ => ⟨rfl, rfl⟩, rfl, rfl, rfl, rfl⟩

/-- Witness for C8 at `timeOfDay = 21`: with lights enabled the
constellation has 3 lights; toggled off it is empty. -/
theorem artificialLights_spec_witness :
    (viewerFrame 21 (appIsNight 21) true).artificialLights.length = 3 ∧
    (viewerFrame 21 (appIsNight 21) false).artificialLights = [] :=
  ⟨((artificialLights_spec 21 true).2.1 (Or.inl (by norm_num)) rfl).2,
   (artificialLights_spec 21 true).2.2.1⟩
